import Mathlib

/-!
Verification of the CVbuilder résumé generator (src/cvbuilder.py and
src/generate_samples.py) against its natural-language specification.

The development shallowly embeds:
  * JSON values (`Json`) and the concrete validator denoted by the
    `RESUME_SCHEMA` literal of cvbuilder.py lines 19-65 (`resumeSchemaOk`);
  * the section-sort normalization (cvbuilder.py line 143) and the
    single-document pipeline `generate_resume` (cvbuilder.py lines 136-184),
    with the fallible external steps (file lookup, JSON parse, template load,
    template render, HTML write, PDF derivation) made explicit in an
    environment record `Env`;
  * the batch loop of generate_samples.py lines 117-158 (`runBatch`),
    including the staging copy, the success-path unlink, and the fact that
    `sys.exit(1)` raises `SystemExit`, which the batch's `except Exception`
    does not catch.
-/

/-- JSON values as parsed by Python's `json.load`.  Objects are association
lists of string keys; Python dicts have unique keys, and all lookups below
take the first matching key. -/
inductive Json where
  | null : Json
  | bool (b : Bool) : Json
  | num (n : Int) : Json
  | str (s : String) : Json
  | arr (elems : List Json) : Json
  | obj (fields : List (String × Json)) : Json

/-- First-match lookup of a key in an object's field list (Python `dict.get`). -/
def lookupField : List (String × Json) → String → Option Json
  | [], _ => none
  | (k, v) :: rest, key => if k == key then some v else lookupField rest key

/-- Schema fragment `{"type": "string"}`. -/
def isStr : Json → Bool
  | .str _ => true
  | _ => false

/-- Schema fragment `{"type": "string", "minLength": 1}`. -/
def isNonEmptyStr : Json → Bool
  | .str s => decide (1 ≤ s.length)
  | _ => false

/-- Schema fragment for a contact entry's `type`:
`{"type": "string", "enum": ["text", "email", "link"]}` (cvbuilder.py line 31). -/
def contactKindOk : Json → Bool
  | .str s => s == "text" || s == "email" || s == "link"
  | _ => false

/-- A property constraint applies only when the key is present
(JSON Schema `properties` semantics). -/
def propOk (fields : List (String × Json)) (key : String) (check : Json → Bool) : Bool :=
  match lookupField fields key with
  | some v => check v
  | none => true

/-- Presence of a required key (JSON Schema `required`). -/
def requiredKey (fields : List (String × Json)) (key : String) : Bool :=
  (lookupField fields key).isSome

/-- Contact-entry schema, cvbuilder.py lines 27-34: object with required
`type` (3-value enum) and `info` (non-empty string); no
`additionalProperties` restriction, so extra fields are permitted. -/
def contactEntryOk : Json → Bool
  | .obj fields =>
      requiredKey fields "type" &&
      requiredKey fields "info" &&
      propOk fields "type" contactKindOk &&
      propOk fields "info" isNonEmptyStr
  | _ => false

/-- The four property names declared for a content item
(cvbuilder.py lines 49-56). -/
def contentItemKeys : List String := ["name", "period", "title", "bullets"]

/-- Schema fragment for `bullets`: `{"type": "array", "items": {"type": "string"}}`. -/
def bulletsOk : Json → Bool
  | .arr xs => xs.all isStr
  | _ => false

/-- Content-item schema, cvbuilder.py lines 46-59: object with required
non-empty `name`, optional string `period` and `title`, optional `bullets`
list of strings, and `additionalProperties: False` — every key must be one
of the four declared property names. -/
def contentItemOk : Json → Bool
  | .obj fields =>
      requiredKey fields "name" &&
      propOk fields "name" isNonEmptyStr &&
      propOk fields "period" isStr &&
      propOk fields "title" isStr &&
      propOk fields "bullets" bulletsOk &&
      fields.all (fun p => contentItemKeys.contains p.1)
  | _ => false

/-- Section schema, cvbuilder.py lines 38-62: object with required string
`id`, non-empty `label`, and `content` array of content items; no
`additionalProperties` restriction at this level. -/
def sectionObjOk : Json → Bool
  | .obj fields =>
      requiredKey fields "id" &&
      requiredKey fields "label" &&
      requiredKey fields "content" &&
      propOk fields "id" isStr &&
      propOk fields "label" isNonEmptyStr &&
      propOk fields "content" (fun v =>
        match v with
        | .arr items => items.all contentItemOk
        | _ => false)
  | _ => false

/-- The whole `RESUME_SCHEMA` (cvbuilder.py lines 19-65): top-level object
with required `name` (non-empty string), `contact_info` (array of contact
entries) and `sections` (array of sections), plus optional string `summary`;
no `additionalProperties` restriction at the top level.  This is the check
performed by `validate(instance=data, schema=RESUME_SCHEMA)` in
`load_and_validate_json` (cvbuilder.py line 84). -/
def resumeSchemaOk : Json → Bool
  | .obj fields =>
      requiredKey fields "name" &&
      requiredKey fields "contact_info" &&
      requiredKey fields "sections" &&
      propOk fields "name" isNonEmptyStr &&
      propOk fields "summary" isStr &&
      propOk fields "contact_info" (fun v =>
        match v with
        | .arr entries => entries.all contactEntryOk
        | _ => false) &&
      propOk fields "sections" (fun v =>
        match v with
        | .arr sections => sections.all sectionObjOk
        | _ => false)
  | _ => false

example : resumeSchemaOk (.obj [("name", .str "A"), ("contact_info", .arr []),
    ("sections", .arr [])]) = true := by decide

example : resumeSchemaOk (.obj [("name", .str ""), ("contact_info", .arr []),
    ("sections", .arr [])]) = false := by decide

/-- Sort key used at cvbuilder.py line 143: `lambda x: x.get('id', '')` — the
section's `id` string, defaulting to the empty string when absent (a validated
section always has a string `id`). -/
def sectionId (j : Json) : String :=
  match j with
  | .obj fields =>
      match lookupField fields "id" with
      | some (.str s) => s
      | _ => ""
  | _ => ""

/-- The `label` field of a section object (empty when absent or not a string). -/
def sectionLabel (j : Json) : String :=
  match j with
  | .obj fields =>
      match lookupField fields "label" with
      | some (.str s) => s
      | _ => ""
  | _ => ""

/-- Lexicographic code-point comparison of character lists — the order Python
uses on strings: position-wise by code point, a proper prefix ranking below
its extensions. -/
def charListLe : List Char → List Char → Bool
  | [], _ => true
  | _ :: _, [] => false
  | a :: as, b :: bs =>
      if a.toNat < b.toNat then true
      else if b.toNat < a.toNat then false
      else charListLe as bs

/-- Python's `<=` on strings: lexicographic by code point. -/
def strLe (a b : String) : Bool := charListLe a.data b.data

/-- Unfolding of `charListLe` on two non-empty lists. -/
theorem charListLe_cons_iff (a b : Char) (as bs : List Char) :
    charListLe (a :: as) (b :: bs) = true ↔
      a.toNat < b.toNat ∨ (a.toNat = b.toNat ∧ charListLe as bs = true) := by
  by_cases h1 : a.toNat < b.toNat
  · simp [charListLe, h1]
  · by_cases h2 : b.toNat < a.toNat
    · rw [charListLe, if_neg h1, if_pos h2]
      simp only [Bool.false_eq_true, false_iff]
      rintro (h | ⟨he, _⟩) <;> omega
    · have he : a.toNat = b.toNat := by omega
      rw [charListLe, if_neg h1, if_neg h2]
      constructor
      · exact fun h => Or.inr ⟨he, h⟩
      · rintro (h | ⟨_, h⟩)
        · omega
        · exact h

/-- The comparison is total. -/
theorem charListLe_total : ∀ as bs : List Char,
    charListLe as bs = true ∨ charListLe bs as = true
  | [], _ => Or.inl rfl
  | _ :: _, [] => Or.inr rfl
  | a :: as, b :: bs => by
      rcases Nat.lt_trichotomy a.toNat b.toNat with h | h | h
      · exact Or.inl ((charListLe_cons_iff ..).mpr (Or.inl h))
      · rcases charListLe_total as bs with ih | ih
        · exact Or.inl ((charListLe_cons_iff ..).mpr (Or.inr ⟨h, ih⟩))
        · exact Or.inr ((charListLe_cons_iff ..).mpr (Or.inr ⟨h.symm, ih⟩))
      · exact Or.inr ((charListLe_cons_iff ..).mpr (Or.inl h))

/-- The comparison is transitive. -/
theorem charListLe_trans : ∀ as bs cs : List Char,
    charListLe as bs = true → charListLe bs cs = true → charListLe as cs = true
  | [], _, _, _, _ => rfl
  | _ :: _, [], _, h1, _ => by simp [charListLe] at h1
  | _ :: _, _ :: _, [], _, h2 => by simp [charListLe] at h2
  | a :: as, b :: bs, c :: cs, h1, h2 => by
      rcases (charListLe_cons_iff ..).mp h1 with hab | ⟨hab, h1t⟩ <;>
        rcases (charListLe_cons_iff ..).mp h2 with hbc | ⟨hbc, h2t⟩
      · exact (charListLe_cons_iff ..).mpr (Or.inl (by omega))
      · exact (charListLe_cons_iff ..).mpr (Or.inl (by omega))
      · exact (charListLe_cons_iff ..).mpr (Or.inl (by omega))
      · exact (charListLe_cons_iff ..).mpr
          (Or.inr ⟨by omega, charListLe_trans as bs cs h1t h2t⟩)

/-- Ordering of sections used by `sorted(..., key=lambda x: x.get('id', ''))`:
lexicographic comparison of the raw `id` strings (Python compares strings
position-wise by code point). -/
def sectionLe (a b : Json) : Prop := strLe (sectionId a) (sectionId b) = true

instance : DecidableRel sectionLe := fun a b =>
  inferInstanceAs (Decidable (strLe (sectionId a) (sectionId b) = true))

instance : IsTotal Json sectionLe :=
  ⟨fun a b => charListLe_total (sectionId a).data (sectionId b).data⟩

instance : IsTrans Json sectionLe :=
  ⟨fun _ _ _ hab hbc => charListLe_trans _ _ _ hab hbc⟩

/-- The stable sort `sorted(data['sections'], key=lambda x: x.get('id', ''))`
of cvbuilder.py line 143, modelled as insertion sort (stable, like Timsort). -/
def sortSections (sections : List Json) : List Json :=
  sections.insertionSort sectionLe

/-- The `sections` list of a document (empty for the shapes a validated
document cannot have). -/
def docSections : Json → List Json
  | .obj fields =>
      match lookupField fields "sections" with
      | some (.arr sections) => sections
      | _ => []
  | _ => []

/-- Replace the value of a key in an object's field list, in place
(Python `data['sections'] = ...`); appends when the key is absent. -/
def setField : List (String × Json) → String → Json → List (String × Json)
  | [], key, v => [(key, v)]
  | (k, w) :: rest, key, v =>
      if k == key then (key, v) :: rest else (k, w) :: setField rest key v

/-- The in-place normalization at cvbuilder.py line 143:
`data['sections'] = sorted(data['sections'], key=lambda x: x.get('id', ''))`. -/
def normalizeDoc : Json → Json
  | .obj fields => .obj (setField fields "sections" (.arr (sortSections (docSections (.obj fields)))))
  | j => j

/-- Outcome of one `generate_resume` invocation: either the dict returned at
cvbuilder.py lines 177-180, or process termination via `sys.exit(1)` at
line 184 (modelled as an explicit outcome because `sys.exit` raises
`SystemExit`, which is not an `Exception`). -/
inductive GenOutcome where
  | ok (html : Option String) (pdf : Option String) : GenOutcome
  | exited (code : Nat) : GenOutcome
deriving DecidableEq

/-- Environment of one `generate_resume` call: availability of the WeasyPrint
backend (module flag `PDF_AVAILABLE`, cvbuilder.py lines 12-16) and the
outcome of each fallible external step. -/
structure Env where
  /-- input path exists and is a regular file (`validate_file_path`). -/
  inputOk : Bool
  /-- result of `json.load`: `none` models a `JSONDecodeError`. -/
  parsed : Option Json
  /-- template file found and loadable (`load_template`). -/
  templateLoadOk : Bool
  /-- the HTML write at cvbuilder.py lines 163-164 succeeds. -/
  htmlWriteOk : Bool
  /-- module-level `PDF_AVAILABLE` flag. -/
  pdfAvailable : Bool
  /-- `weasyprint...write_pdf` at line 170 succeeds (only consulted when the
  backend is available). -/
  pdfGenOk : Bool

/-- Record of one `generate_resume` run: its outcome, the bytes written to
the HTML file (if the write happened), and the warning lines printed to
stderr by the PDF block (cvbuilder.py lines 173 and 175). -/
structure RunOut where
  outcome : GenOutcome
  htmlWritten : Option String
  warnings : List String
deriving DecidableEq

/-- Warning printed at cvbuilder.py line 175 when WeasyPrint is absent. -/
def pdfSkippedWarning : String :=
  "PDF generation skipped: WeasyPrint not available. Install with: pip install weasyprint"

/-- Warning printed at cvbuilder.py line 173 when PDF derivation fails. -/
def pdfFailedWarning : String := "PDF generation failed"

/-- The run record for every error path: the `except` clause at cvbuilder.py
lines 182-184 prints the error and calls `sys.exit(1)`. -/
def exitRun : RunOut := ⟨.exited 1, none, []⟩

/-- Shallow embedding of `generate_resume` (cvbuilder.py lines 136-184).
`tmpl` is the loaded template's render function — `template.render(**data)`
applied to the normalized document, `none` modelling a render-time exception.
`outDir` and `stem` determine the output names
`<outDir>/<stem>_resume.html` / `.pdf` (lines 158-160). -/
def generate_resume (env : Env) (tmpl : Json → Option String)
    (outDir stem : String) : RunOut :=
  if !env.inputOk then exitRun
  else
    match env.parsed with
    | none => exitRun
    | some data =>
      if !resumeSchemaOk data then exitRun
      else if !env.templateLoadOk then exitRun
      else
        match tmpl (normalizeDoc data) with
        | none => exitRun
        | some htmlContent =>
          if !env.htmlWriteOk then exitRun
          else
            ⟨.ok (some (outDir ++ "/" ++ stem ++ "_resume.html"))
                 (if env.pdfAvailable then some (outDir ++ "/" ++ stem ++ "_resume.pdf")
                  else none),
             some htmlContent,
             if env.pdfAvailable then (if env.pdfGenOk then [] else [pdfFailedWarning])
             else [pdfSkippedWarning]⟩

/-- A fully healthy environment around a given parsed document, with the PDF
backend absent (the `PDF_AVAILABLE = False` configuration). -/
def okEnvNoPdf (d : Json) : Env :=
  ⟨true, some d, true, true, false, true⟩

/-- A healthy environment with the PDF backend present but PDF derivation
failing (backend crash on the generated HTML). -/
def okEnvPdfFails (d : Json) : Env :=
  ⟨true, some d, true, true, true, false⟩

/-- A minimal document accepted by the schema. -/
def tinyDoc : Json :=
  .obj [("name", .str "A"), ("contact_info", .arr []), ("sections", .arr [])]

example : resumeSchemaOk tinyDoc = true := by decide

example : generate_resume (okEnvNoPdf tinyDoc) (fun _ => some "h") "out" "r" =
    ⟨.ok (some "out/r_resume.html") none, some "h", [pdfSkippedWarning]⟩ := by decide

/-- One (data, template) pair of the batch cross product
(generate_samples.py lines 117-123). -/
structure BatchTask where
  dataStem : String
  templateStem : String
deriving DecidableEq

/-- Stem of the staged working copy: `f"{sample_name}_{template_name}"`
(generate_samples.py line 127); it is also the stem `generate_resume` derives
output names from. -/
def stagedStem (t : BatchTask) : String := t.dataStem ++ "_" ++ t.templateStem

/-- File name of the staged working copy `f"{sample_name}_{template_name}.json"`
created by `shutil.copy2` (generate_samples.py lines 127-132). -/
def stagedName (t : BatchTask) : String := stagedStem t ++ ".json"

/-- State of the batch run: pairs attempted so far, pairs whose task
succeeded, the staging files currently on disk (a multiset of path names),
and the process exit code once `SystemExit` has propagated out of the loop. -/
structure BatchState where
  attempted : List BatchTask
  succeeded : List BatchTask
  staged : Multiset String
  exitedWith : Option Nat
deriving DecidableEq

/-- The empty starting state of a batch run. -/
def batchInit : BatchState := ⟨[], [], 0, none⟩

/-- The inner loop of generate_samples.py lines 117-158.  For each pair the
code stages a copy of the data file (`shutil.copy2`, line 132), calls
`generate_resume` (line 135) and unlinks the staged copy (line 142) —
but the unlink is inside the `try` with no `finally`, and a failing
`generate_resume` does not raise an `Exception`: it calls `sys.exit(1)`,
raising `SystemExit`, which the `except Exception` clause at line 157 does
not catch, so the whole process terminates, the staged copy still on disk
and the remaining pairs never attempted.  `envOf t` gives the environment
`generate_resume` runs in for pair `t` (the staged copy's content and the
external steps' outcomes). -/
def runBatch (envOf : BatchTask → Env) (tmpl : Json → Option String)
    (outDir : String) : List BatchTask → BatchState → BatchState
  | [], st => st
  | t :: rest, st =>
      let st1 : BatchState :=
        { st with attempted := st.attempted ++ [t],
                  staged := stagedName t ::ₘ st.staged }
      match (generate_resume (envOf t) tmpl outDir (stagedStem t)).outcome with
      | .ok _ _ =>
          runBatch envOf tmpl outDir rest
            { st1 with succeeded := st1.succeeded ++ [t],
                       staged := st1.staged.erase (stagedName t) }
      | .exited c => { st1 with exitedWith := some c }

/-- The first pair of the batch whose `generate_resume` call terminates the
process (the pair where the batch aborts), if any. -/
def firstFailingTask (envOf : BatchTask → Env) (tmpl : Json → Option String)
    (outDir : String) : List BatchTask → Option BatchTask
  | [] => none
  | t :: rest =>
      match (generate_resume (envOf t) tmpl outDir (stagedStem t)).outcome with
      | .ok _ _ => firstFailingTask envOf tmpl outDir rest
      | .exited _ => some t

/-- The six pairs of a 2-data × 3-template batch, in the code's iteration
order (data sources sorted, then templates sorted, nested —
generate_samples.py lines 117 and 121). -/
def tasks6 : List BatchTask :=
  [⟨"d1", "t1"⟩, ⟨"d1", "t2"⟩, ⟨"d1", "t3"⟩,
   ⟨"d2", "t1"⟩, ⟨"d2", "t2"⟩, ⟨"d2", "t3"⟩]

/-- Batch environment in which exactly the staged data of pair (d1, t2) is
malformed JSON (`json.load` fails) and every other pair is healthy. -/
def envOneBad (t : BatchTask) : Env :=
  if t = ⟨"d1", "t2"⟩ then ⟨true, none, true, true, false, true⟩
  else okEnvNoPdf tinyDoc

example :
    (runBatch envOneBad (fun _ => some "h") "out" tasks6 batchInit).exitedWith
      = some 1 := by decide

example :
    (runBatch envOneBad (fun _ => some "h") "out" tasks6 batchInit).attempted
      = [⟨"d1", "t1"⟩, ⟨"d1", "t2"⟩] := by decide

example :
    (runBatch envOneBad (fun _ => some "h") "out" tasks6 batchInit).staged
      = {"d1_t2.json"} := by decide

/-- The HTML path of a run's returned dict (`result['html']`), `none` when
the process exited instead of returning. -/
def RunOut.htmlPath (r : RunOut) : Option String :=
  match r.outcome with
  | .ok h _ => h
  | .exited _ => none

/-- The PDF path of a run's returned dict (`result['pdf']`), `none` when the
process exited instead of returning. -/
def RunOut.pdfPath (r : RunOut) : Option String :=
  match r.outcome with
  | .ok _ p => p
  | .exited _ => none

/-- Whether the run returned normally (reached the `return` at cvbuilder.py
line 177) rather than terminating the process. -/
def RunOut.isSuccess (r : RunOut) : Bool :=
  match r.outcome with
  | .ok _ _ => true
  | .exited _ => false

/-- A template that iterates `sections` and prints each `label` — the
template shape named by the spec's end-to-end example. -/
def labelTmpl (d : Json) : Option String :=
  some (String.join ((docSections d).map sectionLabel))

/-- The spec's example document exactly as §8 writes it, with top-level key
`contactInfo` and contact-entry key `kind`. -/
def specExampleDoc : Json :=
  .obj [("name", .str "Jane Doe"),
        ("contactInfo", .arr [.obj [("kind", .str "email"), ("info", .str "jane@x.com")]]),
        ("sections", .arr
          [.obj [("id", .str "02"), ("label", .str "Experience"),
                 ("content", .arr [.obj [("name", .str "Acme Co"),
                                         ("period", .str "2020-2022"),
                                         ("bullets", .arr [.str "Led team"])]])],
           .obj [("id", .str "01"), ("label", .str "Education"),
                 ("content", .arr [.obj [("name", .str "State U")]])]])]

/-- The spec's example document rewritten with the key names the schema in
the code actually declares: `contact_info` for the contact list and `type`
for the contact-entry kind. -/
def specExampleDocFixed : Json :=
  .obj [("name", .str "Jane Doe"),
        ("contact_info", .arr [.obj [("type", .str "email"), ("info", .str "jane@x.com")]]),
        ("sections", .arr
          [.obj [("id", .str "02"), ("label", .str "Experience"),
                 ("content", .arr [.obj [("name", .str "Acme Co"),
                                         ("period", .str "2020-2022"),
                                         ("bullets", .arr [.str "Led team"])]])],
           .obj [("id", .str "01"), ("label", .str "Education"),
                 ("content", .arr [.obj [("name", .str "State U")]])]])]

example : resumeSchemaOk specExampleDoc = false := by decide
example : resumeSchemaOk specExampleDocFixed = true := by decide
example : (generate_resume (okEnvNoPdf specExampleDocFixed) labelTmpl "out" "jane").htmlWritten
    = some "EducationExperience" := by decide

/-- Overwriting a key makes it the value found by lookup. -/
theorem lookupField_setField (fields : List (String × Json)) (key : String) (v : Json) :
    lookupField (setField fields key v) key = some v := by
  induction fields with
  | nil => simp [setField, lookupField]
  | cons p rest ih =>
      obtain ⟨k, w⟩ := p
      by_cases h : k = key
      · simp [setField, lookupField, h]
      · have hb : (k == key) = false := by simpa using h
        simp [setField, lookupField, hb, ih]

/-- Appending a field with a different key does not change a lookup. -/
theorem lookupField_append_ne (fields : List (String × Json)) (k key : String)
    (v : Json) (h : k ≠ key) :
    lookupField (fields ++ [(k, v)]) key = lookupField fields key := by
  induction fields with
  | nil =>
      have hb : (k == key) = false := by simpa using h
      simp [lookupField, hb]
  | cons p rest ih =>
      by_cases hp : p.1 == key
      · simp [lookupField, hp]
      · simp [lookupField, hp, ih]

/-- Appending a field with a different key preserves `requiredKey`. -/
theorem requiredKey_append_ne (fields : List (String × Json)) (k key : String)
    (v : Json) (h : k ≠ key) :
    requiredKey (fields ++ [(k, v)]) key = requiredKey fields key := by
  simp [requiredKey, lookupField_append_ne fields k key v h]

/-- Appending a field with a different key preserves `propOk`. -/
theorem propOk_append_ne (fields : List (String × Json)) (k key : String)
    (v : Json) (check : Json → Bool) (h : k ≠ key) :
    propOk (fields ++ [(k, v)]) key check = propOk fields key check := by
  simp [propOk, lookupField_append_ne fields k key v h]

/-- The normalized document's `sections` list is exactly the sorted original
`sections` list: cvbuilder.py line 143 replaces the value in place. -/
theorem docSections_normalizeDoc (d : Json) :
    docSections (normalizeDoc d) = sortSections (docSections d) := by
  cases d with
  | obj fields =>
      simp [normalizeDoc, docSections, lookupField_setField]
  | null => simp [normalizeDoc, docSections, sortSections, List.insertionSort]
  | bool b => simp [normalizeDoc, docSections, sortSections, List.insertionSort]
  | num n => simp [normalizeDoc, docSections, sortSections, List.insertionSort]
  | str s => simp [normalizeDoc, docSections, sortSections, List.insertionSort]
  | arr xs => simp [normalizeDoc, docSections, sortSections, List.insertionSort]

/-- Case analysis of `generate_resume`: every run either terminates the
process through the `except` clause (cvbuilder.py lines 182-184), or every
step succeeded and the run record is fully determined by the environment,
the template and the output names. -/
theorem generate_resume_cases (env : Env) (tmpl : Json → Option String)
    (outDir stem : String) :
    generate_resume env tmpl outDir stem = exitRun ∨
    ∃ data htmlContent,
      env.inputOk = true ∧ env.parsed = some data ∧
      resumeSchemaOk data = true ∧ env.templateLoadOk = true ∧
      tmpl (normalizeDoc data) = some htmlContent ∧ env.htmlWriteOk = true ∧
      generate_resume env tmpl outDir stem =
        ⟨.ok (some (outDir ++ "/" ++ stem ++ "_resume.html"))
             (if env.pdfAvailable then some (outDir ++ "/" ++ stem ++ "_resume.pdf") else none),
         some htmlContent,
         if env.pdfAvailable then (if env.pdfGenOk then [] else [pdfFailedWarning])
         else [pdfSkippedWarning]⟩ := by
  unfold generate_resume
  split
  · exact Or.inl rfl
  next hIn =>
    split
    · exact Or.inl rfl
    next data hp =>
      split
      · exact Or.inl rfl
      next hSchema =>
        split
        · exact Or.inl rfl
        next hTl =>
          split
          · exact Or.inl rfl
          next htmlContent hr =>
            split
            · exact Or.inl rfl
            next hW =>
              exact Or.inr ⟨data, htmlContent, by simpa using hIn, hp,
                by simpa using hSchema, by simpa using hTl, hr,
                by simpa using hW, rfl⟩

/-- C4: for every document accepted by the schema, the `sections` list the
template receives after the normalization at cvbuilder.py line 143 is in
ascending lexicographic order of the raw `id` strings, and is a permutation
of the sections of the input, whatever order they appeared in. -/
theorem c4_sections_rendered_sorted (d : Json) (_hv : resumeSchemaOk d = true) :
    List.Sorted sectionLe (docSections (normalizeDoc d)) ∧
      (docSections (normalizeDoc d)).Perm (docSections d) := by
  rw [docSections_normalizeDoc]
  exact ⟨List.sorted_insertionSort sectionLe (docSections d),
         List.perm_insertionSort sectionLe (docSections d)⟩

/-- Witness for C4 at the spec's example document (with the code's key
names): it validates, and the theorem applies. -/
theorem c4_sections_rendered_sorted_witness :
    resumeSchemaOk specExampleDocFixed = true ∧
      (List.Sorted sectionLe (docSections (normalizeDoc specExampleDocFixed)) ∧
        (docSections (normalizeDoc specExampleDocFixed)).Perm (docSections specExampleDocFixed)) :=
  ⟨by decide, c4_sections_rendered_sorted specExampleDocFixed (by decide)⟩

/-- C5, counterexample: the spec's example document, written exactly as the
spec gives it (top-level key `contactInfo`, contact-entry key `kind`), does
not pass the schema of the code, which requires `contact_info` and `type`;
the pipeline on it terminates the process instead of rendering. -/
theorem c5_spec_example_fails_validation :
    resumeSchemaOk specExampleDoc = false ∧
    (generate_resume (okEnvNoPdf specExampleDoc) labelTmpl "out" "jane").outcome =
      .exited 1 := by
  decide

/-- C5, amended: the same document with the code's key names (`contact_info`,
`type`) passes validation, and rendering it with a template that iterates
`sections` printing each `label` yields HTML in which "Education" appears
before "Experience". -/
theorem c5_amended_example_renders_education_first :
    resumeSchemaOk specExampleDocFixed = true ∧
    ∃ h, (generate_resume (okEnvNoPdf specExampleDocFixed) labelTmpl "out" "jane").htmlWritten
          = some h ∧
         ∃ pre mid post, h = pre ++ "Education" ++ mid ++ "Experience" ++ post :=
  ⟨by decide, "EducationExperience", by decide, "", "", "", by decide⟩

/-- A content item whose fields include a key outside the four declared
property names violates `additionalProperties: False`. -/
theorem contentItemOk_extra_field (cf : List (String × Json)) (k : String) (v : Json)
    (hmem : (k, v) ∈ cf) (hk : contentItemKeys.contains k = false) :
    contentItemOk (.obj cf) = false := by
  have hAll : cf.all (fun p => contentItemKeys.contains p.1) = false := by
    cases hall : cf.all fun p => contentItemKeys.contains p.1
    · rfl
    · have hcontra := List.all_eq_true.mp hall (k, v) hmem
      simp only at hcontra
      rw [hk] at hcontra
      exact absurd hcontra (by decide)
  simp only [contentItemOk, hAll, Bool.and_false]

/-- A section whose `content` list holds an invalid item is invalid. -/
theorem sectionObjOk_bad_item (sf : List (String × Json)) (cs : List Json) (c : Json)
    (hlook : lookupField sf "content" = some (.arr cs)) (hmem : c ∈ cs)
    (hbad : contentItemOk c = false) :
    sectionObjOk (.obj sf) = false := by
  have hAll : cs.all contentItemOk = false := by
    cases hall : cs.all contentItemOk
    · rfl
    · have hcontra := List.all_eq_true.mp hall c hmem
      rw [hbad] at hcontra
      exact absurd hcontra (by decide)
  simp only [sectionObjOk, propOk, hlook, hAll, Bool.and_false]

/-- A document whose `sections` list holds an invalid section is invalid. -/
theorem resumeSchemaOk_bad_section (fs : List (String × Json)) (ss : List Json) (s : Json)
    (hlook : lookupField fs "sections" = some (.arr ss)) (hmem : s ∈ ss)
    (hbad : sectionObjOk s = false) :
    resumeSchemaOk (.obj fs) = false := by
  have hAll : ss.all sectionObjOk = false := by
    cases hall : ss.all sectionObjOk
    · rfl
    · have hcontra := List.all_eq_true.mp hall s hmem
      rw [hbad] at hcontra
      exact absurd hcontra (by decide)
  simp only [resumeSchemaOk, propOk, hlook, hAll, Bool.and_false]

/-- C7: a document containing a content item that carries any field beyond
the four recognized ones (`name`, `period`, `title`, `bullets`) fails schema
validation — the item is rejected, not accepted with the field dropped. -/
theorem c7_extra_content_field_rejected
    (fs : List (String × Json)) (ss cs : List Json)
    (sf cf : List (String × Json)) (k : String) (v : Json)
    (hsec : lookupField fs "sections" = some (.arr ss))
    (hs : Json.obj sf ∈ ss)
    (hcont : lookupField sf "content" = some (.arr cs))
    (hc : Json.obj cf ∈ cs)
    (hf : (k, v) ∈ cf)
    (hk : contentItemKeys.contains k = false) :
    resumeSchemaOk (.obj fs) = false :=
  resumeSchemaOk_bad_section fs ss _ hsec hs
    (sectionObjOk_bad_item sf cs _ hcont hc (contentItemOk_extra_field cf k v hf hk))

/-- A document holding the spec's rejected example item
`{"name": "Eng", "location": "NYC"}`. -/
def extraFieldDoc : Json :=
  .obj [("name", .str "J"), ("contact_info", .arr []),
        ("sections", .arr [.obj [("id", .str "01"), ("label", .str "Work"),
          ("content", .arr [.obj [("name", .str "Eng"), ("location", .str "NYC")]])]])]

/-- Witness for C7: the spec's own example of an extra field, `location`,
makes the document invalid. -/
theorem c7_extra_content_field_rejected_witness :
    resumeSchemaOk extraFieldDoc = false :=
  c7_extra_content_field_rejected _ _ _ _ _ "location" (.str "NYC")
    rfl (List.mem_singleton.mpr rfl) rfl (List.mem_singleton.mpr rfl)
    (List.mem_cons_of_mem _ (List.mem_cons_self _ _)) (by decide)

/-- A document with no `summary`, an unrecognized extra field `note` on a
contact entry, and an unrecognized extra field `icon` on a section. -/
def openFieldsDoc : Json :=
  .obj [("name", .str "J"),
        ("contact_info", .arr [.obj [("type", .str "email"), ("info", .str "j@x.com"),
                                     ("note", .str "extra")]]),
        ("sections", .arr [.obj [("id", .str "01"), ("label", .str "Edu"),
                                 ("content", .arr []), ("icon", .str "cap")]])]

/-- C10: the schema is closed only at the content-item level.  Adding any
field with an unrecognized key to a valid contact entry or to a valid
section keeps it valid (only content items declare
`additionalProperties: False`), and a document without the optional
`summary` — here one whose contact entry and section also carry extra
fields — passes validation. -/
theorem c10_validation_open_outside_content_items :
    (∀ (ef : List (String × Json)) (k : String) (v : Json),
        k ≠ "type" → k ≠ "info" →
        contactEntryOk (.obj ef) = true → contactEntryOk (.obj (ef ++ [(k, v)])) = true) ∧
    (∀ (sf : List (String × Json)) (k : String) (v : Json),
        k ≠ "id" → k ≠ "label" → k ≠ "content" →
        sectionObjOk (.obj sf) = true → sectionObjOk (.obj (sf ++ [(k, v)])) = true) ∧
    resumeSchemaOk openFieldsDoc = true := by
  refine ⟨?_, ?_, by decide⟩
  · intro ef k v ht hi h
    simpa only [contactEntryOk, requiredKey_append_ne ef k _ v ht,
      requiredKey_append_ne ef k _ v hi, propOk_append_ne ef k _ v _ ht,
      propOk_append_ne ef k _ v _ hi] using h
  · intro sf k v hid hlab hcont h
    simpa only [sectionObjOk, requiredKey_append_ne sf k _ v hid,
      requiredKey_append_ne sf k _ v hlab, requiredKey_append_ne sf k _ v hcont,
      propOk_append_ne sf k _ v _ hid, propOk_append_ne sf k _ v _ hlab,
      propOk_append_ne sf k _ v _ hcont] using h

/-- Witness for C10: a concrete extra field `x` appended to a valid contact
entry and to a valid section, both still valid. -/
theorem c10_validation_open_outside_content_items_witness :
    contactEntryOk (.obj ([("type", .str "email"), ("info", .str "a")] ++ [("x", .null)]))
      = true ∧
    sectionObjOk (.obj ([("id", .str "1"), ("label", .str "L"), ("content", .arr [])]
      ++ [("x", .null)])) = true :=
  ⟨c10_validation_open_outside_content_items.1 _ "x" .null (by decide) (by decide) (by decide),
   c10_validation_open_outside_content_items.2.1 _ "x" .null (by decide) (by decide) (by decide)
     (by decide)⟩

/-- C3, counterexample: with the PDF backend available but PDF derivation
failing, the returned dict still carries a non-null PDF path (cvbuilder.py
line 179 consults only `PDF_AVAILABLE`), so "PDF path non-null iff backend
available and derivation succeeded" is false at this input. -/
theorem c3_pdf_path_present_despite_failed_derivation :
    ¬ (((generate_resume (okEnvPdfFails tinyDoc) (fun _ => some "h") "out" "r").pdfPath
          ≠ none) ↔
        ((okEnvPdfFails tinyDoc).pdfAvailable = true ∧
          (okEnvPdfFails tinyDoc).pdfGenOk = true)) := by
  decide

/-- C3, amended: on every successful run the returned PDF path is non-null
exactly when the PDF backend is available — regardless of whether PDF
derivation succeeded; the HTML path is always non-null, and a failed
derivation with the backend available is reported as the warning only. -/
theorem c3_pdf_path_iff_backend_available (env : Env) (tmpl : Json → Option String)
    (outDir stem : String)
    (hs : (generate_resume env tmpl outDir stem).isSuccess = true) :
    ((generate_resume env tmpl outDir stem).pdfPath ≠ none ↔ env.pdfAvailable = true) ∧
    (generate_resume env tmpl outDir stem).htmlPath ≠ none ∧
    (env.pdfAvailable = true → env.pdfGenOk = false →
      (generate_resume env tmpl outDir stem).warnings = [pdfFailedWarning]) := by
  rcases generate_resume_cases env tmpl outDir stem with h | ⟨data, htmlContent, _, _, _, _, _, _, h⟩
  · rw [h] at hs
    exact absurd hs (by decide)
  · rw [h]
    cases hpa : env.pdfAvailable with
    | false =>
        refine ⟨by simp [RunOut.pdfPath], by simp [RunOut.htmlPath], ?_⟩
        intro hcontra
        exact absurd hcontra (by decide)
    | true =>
        cases hpg : env.pdfGenOk with
        | false => exact ⟨by simp [RunOut.pdfPath], by simp [RunOut.htmlPath], fun _ _ => by simp⟩
        | true =>
            refine ⟨by simp [RunOut.pdfPath], by simp [RunOut.htmlPath], ?_⟩
            intro _ hcontra
            exact absurd hcontra (by decide)

/-- Witness for C3's amended theorem at the backend-available,
derivation-fails environment. -/
theorem c3_pdf_path_iff_backend_available_witness :
    (((generate_resume (okEnvPdfFails tinyDoc) (fun _ => some "h") "out" "r").pdfPath
        ≠ none) ↔ (okEnvPdfFails tinyDoc).pdfAvailable = true) ∧
    (generate_resume (okEnvPdfFails tinyDoc) (fun _ => some "h") "out" "r").htmlPath
      ≠ none ∧
    ((okEnvPdfFails tinyDoc).pdfAvailable = true → (okEnvPdfFails tinyDoc).pdfGenOk = false →
      (generate_resume (okEnvPdfFails tinyDoc) (fun _ => some "h") "out" "r").warnings
        = [pdfFailedWarning]) :=
  c3_pdf_path_iff_backend_available _ _ _ _ (by decide)

/-- C6: when no PDF backend is available, a run whose other steps succeed
returns normally with a non-null HTML path, a null PDF path and the
descriptive skip warning on stderr — it does not terminate the process. -/
theorem c6_no_pdf_backend_still_succeeds (env : Env) (tmpl : Json → Option String)
    (outDir stem : String) (data : Json) (htmlContent : String)
    (hpdf : env.pdfAvailable = false)
    (hin : env.inputOk = true) (hp : env.parsed = some data)
    (hv : resumeSchemaOk data = true) (htl : env.templateLoadOk = true)
    (hr : tmpl (normalizeDoc data) = some htmlContent) (hw : env.htmlWriteOk = true) :
    generate_resume env tmpl outDir stem =
      ⟨.ok (some (outDir ++ "/" ++ stem ++ "_resume.html")) none,
       some htmlContent, [pdfSkippedWarning]⟩ := by
  simp [generate_resume, hin, hp, hv, htl, hr, hw, hpdf]

/-- Witness for C6 at a concrete healthy no-backend environment. -/
theorem c6_no_pdf_backend_still_succeeds_witness :
    generate_resume (okEnvNoPdf tinyDoc) (fun _ => some "h") "out" "r" =
      ⟨.ok (some ("out" ++ "/" ++ "r" ++ "_resume.html")) none, some "h",
       [pdfSkippedWarning]⟩ :=
  c6_no_pdf_backend_still_succeeds _ _ _ _ tinyDoc "h" rfl rfl rfl (by decide) rfl rfl rfl

/-- C8: rendering is deterministic.  Two runs of the pipeline on the same
parsed document and the same template that both wrote an HTML file wrote
byte-identical HTML — even if the two runs differ in output location and in
every other environment aspect (PDF backend availability, PDF derivation
outcome). -/
theorem c8_rendering_deterministic (e1 e2 : Env) (tmpl : Json → Option String)
    (outDir1 outDir2 stem1 stem2 : String) (d : Json) (h1 h2 : String)
    (hp1 : e1.parsed = some d) (hp2 : e2.parsed = some d)
    (hw1 : (generate_resume e1 tmpl outDir1 stem1).htmlWritten = some h1)
    (hw2 : (generate_resume e2 tmpl outDir2 stem2).htmlWritten = some h2) :
    h1 = h2 := by
  rcases generate_resume_cases e1 tmpl outDir1 stem1 with
    h | ⟨da, hca, _, hpa, _, _, hra, _, heqa⟩
  · rw [h] at hw1
    exact absurd hw1 (by simp [exitRun])
  · rcases generate_resume_cases e2 tmpl outDir2 stem2 with
      h | ⟨db, hcb, _, hpb, _, _, hrb, _, heqb⟩
    · rw [h] at hw2
      exact absurd hw2 (by simp [exitRun])
    · rw [heqa] at hw1
      rw [heqb] at hw2
      have hda : da = d := Option.some.inj (hpa.symm.trans hp1)
      have hdb : db = d := Option.some.inj (hpb.symm.trans hp2)
      rw [hda] at hra
      rw [hdb] at hrb
      have hch : hca = h1 := Option.some.inj hw1
      have hch2 : hcb = h2 := Option.some.inj hw2
      rw [← hch, ← hch2]
      exact Option.some.inj (hra.symm.trans hrb)

/-- Witness for C8: two runs with different environments (no backend vs.
failing backend) and different output locations on the same document and
template agree on the HTML bytes. -/
theorem c8_rendering_deterministic_witness : ("h" : String) = "h" :=
  c8_rendering_deterministic (okEnvNoPdf tinyDoc) (okEnvPdfFails tinyDoc)
    (fun _ => some "h") "o1" "o2" "r1" "r2" tinyDoc "h" "h" rfl rfl
    (by decide) (by decide)

/-- C9: on every error path — input not found or not a file, malformed JSON,
schema violation, template load failure, template render failure, HTML write
failure — `generate_resume` neither raises to its caller nor returns an
error value: its `except` clause catches the exception and terminates the
whole process with exit code 1 (cvbuilder.py lines 182-184), even when
invoked programmatically from the batch code. -/
theorem c9_error_paths_exit_process (env : Env) (tmpl : Json → Option String)
    (outDir stem : String) :
    (env.inputOk = false → (generate_resume env tmpl outDir stem).outcome = .exited 1) ∧
    (env.parsed = none → (generate_resume env tmpl outDir stem).outcome = .exited 1) ∧
    (∀ d, env.parsed = some d → resumeSchemaOk d = false →
      (generate_resume env tmpl outDir stem).outcome = .exited 1) ∧
    (env.templateLoadOk = false →
      (generate_resume env tmpl outDir stem).outcome = .exited 1) ∧
    (∀ d, env.parsed = some d → tmpl (normalizeDoc d) = none →
      (generate_resume env tmpl outDir stem).outcome = .exited 1) ∧
    (env.htmlWriteOk = false →
      (generate_resume env tmpl outDir stem).outcome = .exited 1) := by
  rcases generate_resume_cases env tmpl outDir stem with
    h | ⟨data, htmlContent, hin, hp, hv, htl, hr, hw, h⟩
  · exact ⟨fun _ => by rw [h]; rfl, fun _ => by rw [h]; rfl,
      fun _ _ _ => by rw [h]; rfl, fun _ => by rw [h]; rfl,
      fun _ _ _ => by rw [h]; rfl, fun _ => by rw [h]; rfl⟩
  · refine ⟨fun hbad => ?_, fun hbad => ?_, fun d hd hbad => ?_, fun hbad => ?_,
      fun d hd hbad => ?_, fun hbad => ?_⟩
    · rw [hin] at hbad
      exact absurd hbad (by decide)
    · rw [hp] at hbad
      exact absurd hbad (by simp)
    · have hdd : data = d := Option.some.inj (hp.symm.trans hd)
      rw [← hdd] at hbad
      rw [hv] at hbad
      exact absurd hbad (by decide)
    · rw [htl] at hbad
      exact absurd hbad (by decide)
    · have hdd : data = d := Option.some.inj (hp.symm.trans hd)
      rw [← hdd] at hbad
      rw [hbad] at hr
      exact absurd hr (by simp)
    · rw [hw] at hbad
      exact absurd hbad (by decide)

/-- Environment with a missing input file. -/
def badInputEnv : Env := ⟨false, some tinyDoc, true, true, false, true⟩

/-- Environment whose input file holds malformed JSON. -/
def badParseEnv : Env := ⟨true, none, true, true, false, true⟩

/-- Environment whose input parses but violates the schema. -/
def badSchemaEnv : Env := ⟨true, some (Json.obj []), true, true, false, true⟩

/-- Environment whose template cannot be loaded. -/
def badLoadEnv : Env := ⟨true, some tinyDoc, false, true, false, true⟩

/-- Environment whose HTML write fails. -/
def badWriteEnv : Env := ⟨true, some tinyDoc, true, false, false, true⟩

/-- Witness for C9 exercising all six error paths at concrete environments. -/
theorem c9_error_paths_exit_process_witness :
    (generate_resume badInputEnv (fun _ => some "h") "o" "r").outcome = .exited 1 ∧
    (generate_resume badParseEnv (fun _ => some "h") "o" "r").outcome = .exited 1 ∧
    (generate_resume badSchemaEnv (fun _ => some "h") "o" "r").outcome = .exited 1 ∧
    (generate_resume badLoadEnv (fun _ => some "h") "o" "r").outcome = .exited 1 ∧
    (generate_resume (okEnvNoPdf tinyDoc) (fun _ => none) "o" "r").outcome = .exited 1 ∧
    (generate_resume badWriteEnv (fun _ => some "h") "o" "r").outcome = .exited 1 :=
  ⟨(c9_error_paths_exit_process badInputEnv (fun _ => some "h") "o" "r").1 rfl,
   (c9_error_paths_exit_process badParseEnv (fun _ => some "h") "o" "r").2.1 rfl,
   (c9_error_paths_exit_process badSchemaEnv (fun _ => some "h") "o" "r").2.2.1
     (Json.obj []) rfl (by decide),
   (c9_error_paths_exit_process badLoadEnv (fun _ => some "h") "o" "r").2.2.2.1 rfl,
   (c9_error_paths_exit_process (okEnvNoPdf tinyDoc) (fun _ => none) "o" "r").2.2.2.2.1
     tinyDoc rfl rfl,
   (c9_error_paths_exit_process badWriteEnv (fun _ => some "h") "o" "r").2.2.2.2.2 rfl⟩

/-- C1: evaluation of the batch at the claim's scenario, 2 data sources × 3
templates with one pair's staged data malformed.  The claim says all 6 pairs
are attempted, 5 produce HTML, and the batch completes with one recorded
failure.  The code instead terminates the process at the failing pair:
`generate_resume` calls `sys.exit(1)` (cvbuilder.py line 184), raising
`SystemExit`, which the batch's `except Exception` (generate_samples.py
line 157) does not catch — only 2 of the 6 pairs are attempted, only 1
succeeds, and the process exits with code 1. -/
theorem c1_batch_aborts_at_first_failing_pair :
    tasks6.length = 6 ∧
    (runBatch envOneBad (fun _ => some "h") "out" tasks6 batchInit).attempted =
      [⟨"d1", "t1"⟩, ⟨"d1", "t2"⟩] ∧
    (runBatch envOneBad (fun _ => some "h") "out" tasks6 batchInit).succeeded =
      [⟨"d1", "t1"⟩] ∧
    (runBatch envOneBad (fun _ => some "h") "out" tasks6 batchInit).exitedWith =
      some 1 := by
  decide

/-- C2, counterexample: after the batch of `tasks6` with one failing pair,
the staging area is not empty — the failing pair's staged copy
`d1_t2.json` persists, because the unlink at generate_samples.py line 142
is on the success path only and the process exits before reaching it. -/
theorem c2_staged_copy_persists_after_failure :
    (runBatch envOneBad (fun _ => some "h") "out" tasks6 batchInit).staged =
      {"d1_t2.json"} ∧
    (runBatch envOneBad (fun _ => some "h") "out" tasks6 batchInit).staged ≠ 0 := by
  decide

/-- C2, amended: the staged working copy is deleted for every task that
completes successfully, and for no other: after a batch run the staging area
holds exactly the staged copy of the first failing task — nothing when every
task succeeded, and the failing task's copy when the run aborted. -/
theorem c2_staged_cleanup_on_success_only (envOf : BatchTask → Env)
    (tmpl : Json → Option String) (outDir : String) :
    ∀ (tasks : List BatchTask) (st : BatchState),
      (runBatch envOf tmpl outDir tasks st).staged =
        st.staged +
          (match firstFailingTask envOf tmpl outDir tasks with
           | none => 0
           | some t => {stagedName t})
  | [], st => by simp [runBatch, firstFailingTask]
  | t :: rest, st => by
      rw [runBatch, firstFailingTask]
      cases hout : (generate_resume (envOf t) tmpl outDir (stagedStem t)).outcome with
      | ok hp pp =>
          simp only [hout]
          rw [Multiset.erase_cons_head]
          exact c2_staged_cleanup_on_success_only envOf tmpl outDir rest _
      | exited c =>
          simp only [hout]
          rw [add_comm, Multiset.singleton_add]
